import Mathlib

/-!
Shallow embedding of the `goose-api` crate (an HTTP gateway exposing a
conversational agent), covering: the session start/reply/end handlers of
`src/handlers.rs`, the session-activity cache of `src/api_sessions.rs`,
the bind-address computation of `src/routes.rs` / `src/main.rs`, the
api-key filter, the provider bootstrap of `src/config.rs`, and the
add-extension handler.

External boundary objects (the agent's reply stream, the transcript
store, the provider registry, the process environment) are passed to the
embedded handlers as explicit oracle inputs, so each handler becomes a
pure function from its request plus the outcomes of its external calls
to its observable result (HTTP status, JSON body fields, the persistence
attempt it makes, and whether it drove the agent).
-/

namespace GooseApi

/-- Role of a conversation message (`goose::message::Message`). -/
inductive Role where
  | user
  | assistant
deriving DecidableEq, Repr

/-- A conversation message, modelled by its role and concatenated text
(`Message::as_concat_text`). Tool-call content blocks are not needed by
the handlers embedded here, which treat replies opaquely. -/
structure Message where
  role : Role
  text : String
deriving DecidableEq, Repr

/-- `Message::user().with_text(p)` from the handlers. -/
def Message.userWithText (p : String) : Message :=
  { role := Role.user, text := p }

/-- `Message::as_concat_text` (opaque at this layer: the stored text). -/
def Message.as_concat_text (m : Message) : String :=
  m.text

/-- Outcome of `stream.try_next().await` on the agent's reply stream:
`Ok(Some(m))`, `Ok(None)`, or `Err(_)` (the stream error payload is
never inspected by the handlers, so it carries no data here). -/
inductive FirstItem where
  | yielded (m : Message)
  | finished
  | errored
deriving DecidableEq, Repr

/-- Outcome of `agent.reply(..).await`: a stream whose first fetch gives
a `FirstItem`, or a failed call with an error rendered as a string. -/
inductive ReplyResult where
  | ok (first : FirstItem)
  | err (e : String)
deriving DecidableEq, Repr

/-- Observable result of one handler call: HTTP status code, the JSON
body's `status` and `message` fields, the message list handed to
`session::persist_messages` (`none` when no persistence is attempted),
and whether `agent.reply` was driven. -/
structure HandlerResult where
  http_status : Nat
  body_status : String
  body_message : String
  persisted : Option (List Message)
  agent_invoked : Bool
deriving DecidableEq, Repr

/-- `start_session_handler` (`handlers.rs` lines 102-172, identical in
`main.rs`): builds a one-message history from the prompt, drives the
agent's reply, and matches on the outcome exactly as the Rust
`match result` / `if let Ok(Some(response))` does. -/
def start_session_handler (prompt : String) (result : ReplyResult) : HandlerResult :=
  let messages := [Message.userWithText prompt]
  match result with
  | ReplyResult.ok (FirstItem.yielded response) =>
      { http_status := 200
        body_status := "success"
        body_message := response.as_concat_text
        persisted := some (messages ++ [response])
        agent_invoked := true }
  | ReplyResult.ok FirstItem.finished =>
      { http_status := 200
        body_status := "warning"
        body_message := "Session started but no response generated"
        persisted := some messages
        agent_invoked := true }
  | ReplyResult.ok FirstItem.errored =>
      { http_status := 200
        body_status := "warning"
        body_message := "Session started but no response generated"
        persisted := some messages
        agent_invoked := true }
  | ReplyResult.err e =>
      { http_status := 500
        body_status := "error"
        body_message := "Failed to start session: " ++ e
        persisted := none
        agent_invoked := true }

/-- `reply_session_handler` (`handlers.rs` lines 174-255, identical in
`main.rs`): `loaded` is the outcome of `session::read_messages` for the
request's session identifier (`none` = the store has no readable
transcript there); on `none` the handler returns 404 before driving the
agent. -/
def reply_session_handler (prompt : String) (loaded : Option (List Message))
    (result : ReplyResult) : HandlerResult :=
  match loaded with
  | none =>
      { http_status := 404
        body_status := "error"
        body_message := "Session not found"
        persisted := none
        agent_invoked := false }
  | some ms =>
      let messages := ms ++ [Message.userWithText prompt]
      match result with
      | ReplyResult.ok (FirstItem.yielded response) =>
          { http_status := 200
            body_status := "success"
            body_message := "Reply: " ++ response.as_concat_text
            persisted := some (messages ++ [response])
            agent_invoked := true }
      | ReplyResult.ok FirstItem.finished =>
          { http_status := 200
            body_status := "warning"
            body_message := "Reply processed but no response generated"
            persisted := some messages
            agent_invoked := true }
      | ReplyResult.ok FirstItem.errored =>
          { http_status := 200
            body_status := "warning"
            body_message := "Reply processed but no response generated"
            persisted := some messages
            agent_invoked := true }
      | ReplyResult.err e =>
          { http_status := 500
            body_status := "error"
            body_message := "Failed to reply to session: " ++ e
            persisted := none
            agent_invoked := true }

/-! ## Session-activity cache (`api_sessions.rs`) -/

/-- A session-activity record (`ApiSession`), reduced to the field the
expiry logic reads: the `last_active` timestamp in whole seconds since
the epoch (an `AtomicU64` in the source). The owned agent handle is
irrelevant to expiry and omitted. -/
structure ApiSession where
  last_active : Nat
deriving DecidableEq, Repr

/-- Rust checked `u64` subtraction: `a - b` is `none` (a panic in the
compiled-with-overflow-checks build) exactly when it would underflow. -/
def rust_u64_sub (a b : Nat) : Option Nat :=
  if a < b then none else some (a - b)

/-- Wrapping `u64` subtraction `(a - b) mod 2^64`, valid for
`a, b < 2^64`: the release-build semantics of the same expression. -/
def wrapping_sub_u64 (a b : Nat) : Nat :=
  (2 ^ 64 + a - b) % 2 ^ 64

/-- `ApiSession::is_expired` (`api_sessions.rs` line 26):
`current_timestamp() - self.last_active > ttl.as_secs()` on `u64`,
under release (wrapping) semantics. -/
def is_expired (now last_active ttl : Nat) : Bool :=
  decide (ttl < wrapping_sub_u64 now last_active)

/-- The same expression under checked semantics: `none` models the
underflow panic of the unguarded `u64` subtraction. -/
def is_expired_checked (now last_active ttl : Nat) : Option Bool :=
  (rust_u64_sub now last_active).map (fun d => decide (ttl < d))

/-- `SESSION_TIMEOUT_SECS` (`api_sessions.rs` line 39). -/
def SESSION_TIMEOUT_SECS : Nat := 3600

/-- `cleanup_expired_sessions` (`api_sessions.rs` lines 41-44):
`SESSIONS.retain(|_, sess| !sess.is_expired(ttl))` with a fixed ttl of
`SESSION_TIMEOUT_SECS`; the `DashMap` is modelled as an association list
of identifier/record pairs. -/
def cleanup_expired_sessions (now : Nat) (sessions : List (Nat × ApiSession)) :
    List (Nat × ApiSession) :=
  sessions.filter (fun e => ! is_expired now e.2.last_active SESSION_TIMEOUT_SECS)

/-! ## Bind-address computation (`routes.rs` lines 125-133, `main.rs` lines 760-768) -/

/-- Rust `str::split(sep)` over a character list: splits at every
occurrence of `sep`, keeping empty pieces, so the empty input gives one
empty piece just as `"".split('.')` does. -/
def split_on_char (sep : Char) : List Char → List (List Char)
  | [] => [[]]
  | c :: rest =>
    match split_on_char sep rest with
    | [] => if c = sep then [[], []] else [[c]]
    | g :: gs => if c = sep then [] :: g :: gs else (c :: g) :: gs

/-- Rust `str::parse::<u8>()`: an optional leading `+`, then one or more
ASCII digits, value at most 255; anything else is an error (`none`). -/
def parse_u8 (s : List Char) : Option Nat :=
  let cs :=
    match s with
    | '+' :: rest => rest
    | other => other
  if cs.isEmpty then none
  else if cs.all Char.isDigit then
    let v := cs.foldl (fun a c => a * 10 + (c.toNat - 48)) 0
    if v ≤ 255 then some v else none
  else none

/-- The bind-address computation of `run_server` / `main`:
`host.split('.').map(|part| part.parse::<u8>().unwrap_or(127))`, then
the four collected parts if there are exactly four, else `[127,0,0,1]`. -/
def host_addr (host : String) : List Nat :=
  let host_parts := (split_on_char '.' host.toList).map (fun part => (parse_u8 part).getD 127)
  if host_parts.length = 4 then host_parts else [127, 0, 0, 1]

/-! ## The api-key filter (`handlers.rs` lines 437-449, `main.rs` lines 488-500) -/

/-- `with_api_key`: `warp::header::value("x-api-key")` rejects a request
with no `x-api-key` header, and the `and_then` closure compares the
header value byte-for-byte with the configured key (`HeaderValue ==
String` in warp is a byte comparison, and equal UTF-8 byte strings are
equal strings). `some k` models extraction `(String,)` handed to the
handler; `none` models rejection before any handler runs. -/
def with_api_key (api_key : String) (header : Option String) : Option String :=
  match header with
  | none => none
  | some header_api_key =>
      if header_api_key = api_key then some api_key else none

/-! ## Provider bootstrap (`config.rs` lines 18-65, `main.rs` lines 546-598) -/

/-- One provider-declared configuration key from the external provider
registry's metadata. -/
structure ProviderKey where
  name : String
  secret : Bool
  required : Bool
deriving DecidableEq, Repr

/-- Provider metadata from `goose::providers::providers()`. -/
structure ProviderMeta where
  name : String
  config_keys : List ProviderKey
deriving DecidableEq, Repr

/-- The process-wide configuration store (`Config::global()`), modelled
as append-logs of its `set_param` / `set_secret` writes, later writes
shadowing earlier ones on lookup. -/
structure ConfigStore where
  params : List (String × String)
  secrets : List (String × String)
deriving DecidableEq, Repr

/-- `config.set_param(k, v)`. -/
def ConfigStore.set_param (st : ConfigStore) (k v : String) : ConfigStore :=
  { st with params := st.params ++ [(k, v)] }

/-- `config.set_secret(k, v)`. -/
def ConfigStore.set_secret (st : ConfigStore) (k v : String) : ConfigStore :=
  { st with secrets := st.secrets ++ [(k, v)] }

/-- The `for key in &provider_meta.config_keys` loop of
`initialize_provider_config`: for each declared key, an identically
named environment variable is written as secret or parameter when
present; a missing required key aborts with the exact error text; a
missing optional key is only logged. -/
def set_provider_keys (env : String → Option String) :
    List ProviderKey → ConfigStore → Except String ConfigStore
  | [], st => Except.ok st
  | k :: rest, st =>
    match env k.name with
    | some value =>
        set_provider_keys env rest
          (if k.secret then st.set_secret k.name value else st.set_param k.name value)
    | none =>
        if k.required then Except.error ("Required key " ++ k.name ++ " not provided")
        else set_provider_keys env rest st

/-- `initialize_provider_config` (`config.rs` lines 18-65): resolves the
provider and model names from environment / configuration / literal
defaults, writes them under `GOOSE_PROVIDER` and `GOOSE_MODEL`, runs the
provider-key loop for the matching registry entry, then instantiates
the provider (`create` plus `update_provider`, modelled by the
`create_provider` oracle). `env` is `std::env::var`, `cfg` is
`api_config.get_string`. On success it returns the updated store plus
the two resolved names. -/
def init_provider_config (env cfg : String → Option String)
    (registry : List ProviderMeta)
    (create_provider : String → String → Except String Unit)
    (st : ConfigStore) : Except String (ConfigStore × String × String) :=
  let provider_name := ((env "GOOSE_API_PROVIDER").orElse (fun _ => cfg "provider")).getD "openai"
  let model_name := ((env "GOOSE_API_MODEL").orElse (fun _ => cfg "model")).getD "gpt-4o"
  let st := (st.set_param "GOOSE_PROVIDER" provider_name).set_param "GOOSE_MODEL" model_name
  let keyed :=
    match registry.find? (fun p => p.name == provider_name) with
    | some provider_meta => set_provider_keys env provider_meta.config_keys st
    | none => Except.ok st
  match keyed with
  | Except.error e => Except.error e
  | Except.ok st =>
    match create_provider provider_name model_name with
    | Except.error e => Except.error e
    | Except.ok _ => Except.ok (st, provider_name, model_name)

/-! ## Add-extension handler (`handlers.rs` lines 318-423)

The Windows-only Node-installer pre-step is compiled out on every other
target (`#[cfg(target_os = "windows")]`) and is outside the scope of the
claims below; the embedding covers the handler from the translation
`match` on. -/

/-- `goose::agents::extension::Envs`, an environment-variable map the
handler passes through untouched. -/
structure Envs where
  entries : List (String × String)
deriving DecidableEq, Repr

/-- `mcp_core::tool::Tool`, the external tool descriptor: passed through
untouched by the handler, so modelled by its name alone. -/
structure Tool where
  name : String
deriving DecidableEq, Repr

/-- `ExtensionConfigRequest` (`handlers.rs` lines 63-100): the
discriminated request body of `POST /extensions/add`. -/
inductive ExtensionConfigRequest where
  | sse (name uri : String) (envs : Envs) (env_keys : List String) (timeout : Option Nat)
  | stdio (name cmd : String) (args : List String) (envs : Envs)
      (env_keys : List String) (timeout : Option Nat)
  | builtin (name : String) (display_name : Option String) (timeout : Option Nat)
  | frontend (name : String) (tools : List Tool) (instructions : Option String)
deriving DecidableEq, Repr

/-- `goose::agents::ExtensionConfig`, the agent library's extension
configuration as constructed by the handler (with its `description` and
`bundled` fields). -/
inductive ExtensionConfig where
  | sse (name uri : String) (envs : Envs) (env_keys : List String)
      (description : Option String) (timeout : Option Nat) (bundled : Option Bool)
  | stdio (name cmd : String) (args : List String) (envs : Envs)
      (env_keys : List String) (timeout : Option Nat)
      (description : Option String) (bundled : Option Bool)
  | builtin (name : String) (display_name : Option String) (timeout : Option Nat)
      (bundled : Option Bool)
  | frontend (name : String) (tools : List Tool) (instructions : Option String)
      (bundled : Option Bool)
deriving DecidableEq, Repr

/-- The `let extension = match req { .. }` translation of
`add_extension_handler` (`handlers.rs` lines 370-410). -/
def translate_request : ExtensionConfigRequest → ExtensionConfig
  | ExtensionConfigRequest.sse name uri envs env_keys timeout =>
      ExtensionConfig.sse name uri envs env_keys none timeout none
  | ExtensionConfigRequest.stdio name cmd args envs env_keys timeout =>
      ExtensionConfig.stdio name cmd args envs env_keys timeout none none
  | ExtensionConfigRequest.builtin name display_name timeout =>
      ExtensionConfig.builtin name display_name timeout none
  | ExtensionConfigRequest.frontend name tools instructions =>
      ExtensionConfig.frontend name tools instructions none

/-- The JSON body `ExtensionResponse { error, message }`. -/
structure ExtensionResponse where
  error : Bool
  message : Option String
deriving DecidableEq, Repr

/-- `add_extension_handler` (`handlers.rs` lines 318-423) outside the
Windows pre-step: translate the request, register it with the shared
agent (`add_extension` oracle, error rendered as a string), and answer
with `warp::reply::json` — hence HTTP 200 in both branches. -/
def add_extension_handler (req : ExtensionConfigRequest)
    (add_extension : ExtensionConfig → Except String Unit) : Nat × ExtensionResponse :=
  let extension := translate_request req
  match add_extension extension with
  | Except.ok _ => (200, { error := false, message := none })
  | Except.error e =>
      (200, { error := true
              message := some ("Failed to add extension configuration, error: " ++ e) })

/-- A sample environment for concrete evaluation of the bootstrap. -/
def env_sample : String → Option String :=
  fun k => if k = "GOOSE_API_PROVIDER" then some "anthropic" else none

/-- A sample configuration for concrete evaluation of the bootstrap. -/
def cfg_sample : String → Option String :=
  fun k => if k = "model" then some "claude" else none

/-- The empty configuration store. -/
def store_empty : ConfigStore := { params := [], secrets := [] }

/-! ## Theorems -/

/-- Helper: the wrapping `u64` subtraction agrees with truncated `Nat`
subtraction whenever the minuend is in range and no underflow occurs. -/
theorem wrapping_sub_u64_of_le (now last : Nat) (hbound : now < 2 ^ 64)
    (hle : last ≤ now) : wrapping_sub_u64 now last = now - last := by
  unfold wrapping_sub_u64
  have h1 : 2 ^ 64 + now - last = 2 ^ 64 + (now - last) := by omega
  rw [h1, Nat.add_mod_left, Nat.mod_eq_of_lt (by omega)]

/-- Helper: the provider-key loop only appends to the parameter log, so
it preserves membership of previously written parameters. -/
theorem set_provider_keys_params_mono (env : String → Option String) :
    ∀ (ks : List ProviderKey) (st st' : ConfigStore),
      set_provider_keys env ks st = Except.ok st' →
      ∀ e, e ∈ st.params → e ∈ st'.params := by
  intro ks
  induction ks with
  | nil =>
    intro st st' h e he
    simp only [set_provider_keys] at h
    injection h with h1
    subst h1
    exact he
  | cons k rest ih =>
    intro st st' h e he
    simp only [set_provider_keys] at h
    cases henv : env k.name with
    | some v =>
      simp only [henv] at h
      by_cases hs : k.secret = true
      · rw [if_pos hs] at h
        exact ih _ _ h e he
      · rw [if_neg hs] at h
        exact ih _ _ h e (List.mem_append_left _ he)
    | none =>
      simp only [henv] at h
      by_cases hr : k.required = true
      · rw [if_pos hr] at h
        cases h
      · rw [if_neg hr] at h
        exact ih _ _ h e he

/-- C1 (counterexample): on the failed-reply outcome the start-session
handler answers HTTP 500 and makes no persistence attempt, refuting the
claim that the persistence attempt also happens on the error (HTTP 500)
outcome. -/
theorem start_error_outcome_skips_persist :
    (start_session_handler "hello" (ReplyResult.err "boom")).http_status = 500 ∧
    (start_session_handler "hello" (ReplyResult.err "boom")).persisted = none := by
  exact ⟨rfl, rfl⟩

/-- C1 (amended): whenever the agent's reply call returns a stream, both
the start-session and reply-to-session handlers attempt to persist the
resulting message list — also on the empty-stream and stream-error
outcomes — but on a failed reply call (the HTTP 500 outcome) no
persistence is attempted. -/
theorem handlers_persist_on_stream_outcomes :
    (∀ p fi, ((start_session_handler p (ReplyResult.ok fi)).persisted).isSome = true) ∧
    (∀ p e, (start_session_handler p (ReplyResult.err e)).persisted = none) ∧
    (∀ p ms fi,
        ((reply_session_handler p (some ms) (ReplyResult.ok fi)).persisted).isSome = true) ∧
    (∀ p ms e, (reply_session_handler p (some ms) (ReplyResult.err e)).persisted = none) := by
  refine ⟨?_, ?_, ?_, ?_⟩
  · intro p fi; cases fi <;> rfl
  · intro p e; rfl
  · intro p ms fi; cases fi <;> rfl
  · intro p ms e; rfl

/-- C2 (counterexample): the host string `1.2.3.x` does not decompose
into four unsigned 8-bit integers, yet the bind-address computation
yields `1.2.3.127` (the unparsable part becomes `127` individually),
not the loopback address. -/
theorem host_addr_unparsable_part_not_loopback :
    host_addr "1.2.3.x" = [1, 2, 3, 127] ∧ host_addr "1.2.3.x" ≠ [127, 0, 0, 1] := by
  exact ⟨by decide, by decide⟩

/-- C2 (amended): a host string with other than four dot-separated parts
yields the loopback address `127.0.0.1`; a host string with exactly four
parts yields, in each position, the part parsed as an unsigned 8-bit
integer, with `127` substituted for any part that fails to parse — in
particular, four parseable parts yield the four parsed octets. -/
theorem host_addr_spec :
    (∀ host : String, (split_on_char '.' host.toList).length ≠ 4 →
        host_addr host = [127, 0, 0, 1]) ∧
    (∀ (host : String) (p₁ p₂ p₃ p₄ : List Char),
        split_on_char '.' host.toList = [p₁, p₂, p₃, p₄] →
        host_addr host =
          [(parse_u8 p₁).getD 127, (parse_u8 p₂).getD 127,
           (parse_u8 p₃).getD 127, (parse_u8 p₄).getD 127]) ∧
    (∀ (host : String) (p₁ p₂ p₃ p₄ : List Char) (n₁ n₂ n₃ n₄ : Nat),
        split_on_char '.' host.toList = [p₁, p₂, p₃, p₄] →
        parse_u8 p₁ = some n₁ → parse_u8 p₂ = some n₂ →
        parse_u8 p₃ = some n₃ → parse_u8 p₄ = some n₄ →
        host_addr host = [n₁, n₂, n₃, n₄]) := by
  refine ⟨?_, ?_, ?_⟩
  · intro host h
    simp only [host_addr, List.length_map]
    rw [if_neg h]
  · intro host p₁ p₂ p₃ p₄ h
    simp only [String.toList] at h
    simp [host_addr, h]
  · intro host p₁ p₂ p₃ p₄ n₁ n₂ n₃ n₄ h h1 h2 h3 h4
    simp only [String.toList] at h
    simp [host_addr, h, h1, h2, h3, h4]

/-- C2 (witness): a three-part host falls back to the loopback address
and a well-formed four-octet host parses to its octets. -/
theorem host_addr_spec_witness :
    host_addr "1.2.3" = [127, 0, 0, 1] ∧ host_addr "10.0.0.1" = [10, 0, 0, 1] := by
  constructor
  · exact host_addr_spec.1 "1.2.3" (by decide)
  · exact host_addr_spec.2.2 "10.0.0.1" ['1', '0'] ['0'] ['0'] ['1'] 10 0 0 1
      (by decide) (by decide) (by decide) (by decide) (by decide)

/-- C3: for a configured shared secret, the api-key filter forwards the
request carrying the key value exactly when the `x-api-key` header
equals the secret, and rejects it (before any handler) exactly when the
header differs or is absent. -/
theorem with_api_key_spec (S : String) (header : Option String) :
    (with_api_key S header = some S ↔ header = some S) ∧
    (with_api_key S header = none ↔ header ≠ some S) := by
  cases header with
  | none => simp [with_api_key]
  | some h => by_cases hh : h = S <;> simp [with_api_key, hh]

/-- C4: for a record whose last-activity timestamp is at most the
current time (both in `u64` range), the is-expired check is true exactly
when the whole-second elapsed time strictly exceeds the time-to-live,
and false at or below that threshold. -/
theorem is_expired_spec (now last ttl : Nat) (hbound : now < 2 ^ 64)
    (hle : last ≤ now) :
    (is_expired now last ttl = true ↔ ttl < now - last) ∧
    (is_expired now last ttl = false ↔ now - last ≤ ttl) := by
  have hw := wrapping_sub_u64_of_le now last hbound hle
  constructor
  · simp [is_expired, hw]
  · simp only [is_expired, hw, decide_eq_false_iff_not]
    omega

/-- C4 (witness): 4000 seconds elapsed exceeds a 3600-second ttl; 3600
seconds elapsed does not. -/
theorem is_expired_spec_witness :
    is_expired 5000 1000 3600 = true ∧ is_expired 4600 1000 3600 = false := by
  constructor
  · exact (is_expired_spec 5000 1000 3600 (by norm_num) (by norm_num)).1.mpr (by norm_num)
  · exact (is_expired_spec 4600 1000 3600 (by norm_num) (by norm_num)).2.mpr (by norm_num)

/-- C5: one cleanup sweep keeps exactly the records not expired under a
3600-second time-to-live — a record survives iff it was present and not
expired — and the surviving registry is a sublist of the original, so
surviving entries are unchanged and in their original order. -/
theorem cleanup_expired_sessions_spec (now : Nat)
    (sessions : List (Nat × ApiSession)) :
    (∀ e, e ∈ cleanup_expired_sessions now sessions ↔
        e ∈ sessions ∧ is_expired now e.2.last_active 3600 = false) ∧
    (cleanup_expired_sessions now sessions).Sublist sessions := by
  constructor
  · intro e
    simp [cleanup_expired_sessions, SESSION_TIMEOUT_SECS, List.mem_filter]
  · exact List.filter_sublist _

/-- C6: a reply-to-session request whose identifier has no readable
transcript is answered with HTTP 404, status `error`, message
`Session not found`, with no persistence attempt and without driving
the agent's reply operation — whatever the agent would have answered. -/
theorem reply_not_found_spec (prompt : String) (r : ReplyResult) :
    reply_session_handler prompt none r =
      { http_status := 404
        body_status := "error"
        body_message := "Session not found"
        persisted := none
        agent_invoked := false } := rfl

/-- C7: whenever provider bootstrap succeeds, the resolved provider name
is the first present of `GOOSE_API_PROVIDER` / configuration `provider`
/ literal `openai`, the resolved model name the first present of
`GOOSE_API_MODEL` / configuration `model` / literal `gpt-4o`, and the
resulting configuration store contains the writes of the two resolved
values under `GOOSE_PROVIDER` and `GOOSE_MODEL`. -/
theorem init_provider_config_spec (env cfg : String → Option String)
    (registry : List ProviderMeta)
    (create_provider : String → String → Except String Unit)
    (st st' : ConfigStore) (p m : String)
    (h : init_provider_config env cfg registry create_provider st =
        Except.ok (st', p, m)) :
    p = ((env "GOOSE_API_PROVIDER").orElse (fun _ => cfg "provider")).getD "openai" ∧
    m = ((env "GOOSE_API_MODEL").orElse (fun _ => cfg "model")).getD "gpt-4o" ∧
    ("GOOSE_PROVIDER", p) ∈ st'.params ∧ ("GOOSE_MODEL", m) ∈ st'.params := by
  simp only [init_provider_config] at h
  set pn := ((env "GOOSE_API_PROVIDER").orElse (fun _ => cfg "provider")).getD "openai"
    with hpn
  set mn := ((env "GOOSE_API_MODEL").orElse (fun _ => cfg "model")).getD "gpt-4o"
    with hmn
  set st₂ := (st.set_param "GOOSE_PROVIDER" pn).set_param "GOOSE_MODEL" mn with hst₂
  have hmem₁ : ("GOOSE_PROVIDER", pn) ∈ st₂.params := by
    simp [hst₂, ConfigStore.set_param]
  have hmem₂ : ("GOOSE_MODEL", mn) ∈ st₂.params := by
    simp [hst₂, ConfigStore.set_param]
  cases hk : (match registry.find? (fun pr => pr.name == pn) with
      | some provider_meta => set_provider_keys env provider_meta.config_keys st₂
      | none => Except.ok st₂) with
  | error e =>
    rw [hk] at h
    cases h
  | ok stk =>
    rw [hk] at h
    have hstep : ∀ e, e ∈ st₂.params → e ∈ stk.params := by
      intro e he
      cases hf : registry.find? (fun pr => pr.name == pn) with
      | some provider_meta =>
        rw [hf] at hk
        exact set_provider_keys_params_mono env provider_meta.config_keys st₂ stk hk e he
      | none =>
        rw [hf] at hk
        injection hk with hk1
        subst hk1
        exact he
    cases hc : create_provider pn mn with
    | error e =>
      rw [hc] at h
      cases h
    | ok u =>
      rw [hc] at h
      injection h with h1
      injection h1 with ha hb
      injection hb with hb1 hb2
      subst ha
      exact ⟨hb1.symm, hb2.symm, hb1 ▸ hstep _ hmem₁, hb2 ▸ hstep _ hmem₂⟩

/-- C7 (witness): with the provider name coming from the environment,
the model name from configuration, and an empty registry, bootstrap
resolves `anthropic` / `claude` and the store holds both writes. -/
theorem init_provider_config_spec_witness :
    "anthropic" =
      ((env_sample "GOOSE_API_PROVIDER").orElse (fun _ => cfg_sample "provider")).getD
        "openai" ∧
    "claude" =
      ((env_sample "GOOSE_API_MODEL").orElse (fun _ => cfg_sample "model")).getD
        "gpt-4o" ∧
    ("GOOSE_PROVIDER", "anthropic") ∈
      (ConfigStore.mk [("GOOSE_PROVIDER", "anthropic"), ("GOOSE_MODEL", "claude")]
        []).params ∧
    ("GOOSE_MODEL", "claude") ∈
      (ConfigStore.mk [("GOOSE_PROVIDER", "anthropic"), ("GOOSE_MODEL", "claude")]
        []).params :=
  init_provider_config_spec env_sample cfg_sample [] (fun _ _ => Except.ok ())
    store_empty
    (ConfigStore.mk [("GOOSE_PROVIDER", "anthropic"), ("GOOSE_MODEL", "claude")] [])
    "anthropic" "claude" rfl

/-- C8: the add-extension handler translates each request variant into
the agent library's configuration of the same variant, preserving every
submitted field, with `description` and `bundled` absent; it answers
HTTP 200 with `error:false` when registration succeeds and HTTP 200
with `error:true` and the formatted failure text when it fails. -/
theorem add_extension_spec :
    (∀ name uri envs env_keys timeout,
        translate_request (ExtensionConfigRequest.sse name uri envs env_keys timeout) =
          ExtensionConfig.sse name uri envs env_keys none timeout none) ∧
    (∀ name cmd args envs env_keys timeout,
        translate_request
            (ExtensionConfigRequest.stdio name cmd args envs env_keys timeout) =
          ExtensionConfig.stdio name cmd args envs env_keys timeout none none) ∧
    (∀ name display_name timeout,
        translate_request (ExtensionConfigRequest.builtin name display_name timeout) =
          ExtensionConfig.builtin name display_name timeout none) ∧
    (∀ name tools instructions,
        translate_request (ExtensionConfigRequest.frontend name tools instructions) =
          ExtensionConfig.frontend name tools instructions none) ∧
    (∀ req add_extension, add_extension (translate_request req) = Except.ok () →
        add_extension_handler req add_extension =
          (200, { error := false, message := none })) ∧
    (∀ req add_extension e, add_extension (translate_request req) = Except.error e →
        add_extension_handler req add_extension =
          (200, { error := true
                  message :=
                    some ("Failed to add extension configuration, error: " ++ e) })) := by
  refine ⟨fun _ _ _ _ _ => rfl, fun _ _ _ _ _ _ => rfl, fun _ _ _ => rfl,
    fun _ _ _ => rfl, ?_, ?_⟩
  · intro req add_ext h
    simp [add_extension_handler, h]
  · intro req add_ext e h
    simp [add_extension_handler, h]

/-- C8 (witness): a concrete builtin request under a succeeding and a
failing registration oracle. -/
theorem add_extension_spec_witness :
    add_extension_handler (ExtensionConfigRequest.builtin "dev" none none)
        (fun _ => Except.ok ()) =
      (200, { error := false, message := none }) ∧
    add_extension_handler (ExtensionConfigRequest.builtin "dev" none none)
        (fun _ => Except.error "denied") =
      (200, { error := true
              message :=
                some ("Failed to add extension configuration, error: " ++ "denied") }) := by
  constructor
  · exact add_extension_spec.2.2.2.2.1
      (ExtensionConfigRequest.builtin "dev" none none) (fun _ => Except.ok ()) rfl
  · exact add_extension_spec.2.2.2.2.2
      (ExtensionConfigRequest.builtin "dev" none none) (fun _ => Except.error "denied")
      "denied" rfl

/-- C9: when the reply call succeeds but the first fetch on the stream
yields an error, both handlers produce the same result as on the clean
empty stream: HTTP 200, status `warning`, and the transcript persisted
with only the input messages — not the error/HTTP 500 outcome. -/
theorem stream_error_warning_spec :
    (∀ p, start_session_handler p (ReplyResult.ok FirstItem.errored) =
        start_session_handler p (ReplyResult.ok FirstItem.finished)) ∧
    (∀ p, (start_session_handler p (ReplyResult.ok FirstItem.errored)).http_status = 200 ∧
        (start_session_handler p (ReplyResult.ok FirstItem.errored)).body_status =
          "warning" ∧
        (start_session_handler p (ReplyResult.ok FirstItem.errored)).persisted =
          some [Message.userWithText p]) ∧
    (∀ p ms, reply_session_handler p (some ms) (ReplyResult.ok FirstItem.errored) =
        reply_session_handler p (some ms) (ReplyResult.ok FirstItem.finished)) ∧
    (∀ p ms,
        (reply_session_handler p (some ms)
            (ReplyResult.ok FirstItem.errored)).http_status = 200 ∧
        (reply_session_handler p (some ms)
            (ReplyResult.ok FirstItem.errored)).body_status = "warning" ∧
        (reply_session_handler p (some ms)
            (ReplyResult.ok FirstItem.errored)).persisted =
          some (ms ++ [Message.userWithText p])) :=
  ⟨fun _ => rfl, fun _ => ⟨rfl, rfl, rfl⟩, fun _ _ => rfl, fun _ _ => ⟨rfl, rfl, rfl⟩⟩

/-- C10: the is-expired check's unguarded `u64` subtraction is free of
underflow exactly when the last-activity timestamp is at most the
current time; when the timestamp exceeds the current time the
subtraction underflows; and when it does not underflow the checked
computation agrees with the shipped (wrapping) one. -/
theorem is_expired_underflow_spec :
    (∀ now last ttl : Nat,
        (is_expired_checked now last ttl).isSome = true ↔ last ≤ now) ∧
    (∀ now last ttl : Nat, now < last → is_expired_checked now last ttl = none) ∧
    (∀ now last ttl : Nat, now < 2 ^ 64 → last ≤ now →
        is_expired_checked now last ttl = some (is_expired now last ttl)) := by
  refine ⟨?_, ?_, ?_⟩
  · intro now last ttl
    by_cases h : now < last
    · simp [is_expired_checked, rust_u64_sub, h]
    · simp [is_expired_checked, rust_u64_sub, h]
      omega
  · intro now last ttl h
    simp [is_expired_checked, rust_u64_sub, h]
  · intro now last ttl hbound hle
    have hw := wrapping_sub_u64_of_le now last hbound hle
    simp [is_expired_checked, rust_u64_sub, is_expired, hw, Nat.not_lt.mpr hle]

/-- C10 (witness): a timestamp in the past is subtracted without
underflow, a timestamp in the future underflows, and the checked and
wrapping forms agree on an in-range input. -/
theorem is_expired_underflow_spec_witness :
    (is_expired_checked 10 3 3600).isSome = true ∧
    is_expired_checked 3 10 3600 = none ∧
    is_expired_checked 5000 1000 0 = some (is_expired 5000 1000 0) := by
  refine ⟨?_, ?_, ?_⟩
  · exact (is_expired_underflow_spec.1 10 3 3600).mpr (by norm_num)
  · exact is_expired_underflow_spec.2.1 3 10 3600 (by norm_num)
  · exact is_expired_underflow_spec.2.2 5000 1000 0 (by norm_num) (by norm_num)

end GooseApi
